import Mathlib

/-!
Shallow embedding of the Nova Canvas virtual try-on scripts
(`image_generator_virtual_tryon.py` and `image_generator_virtual_tryon_room.py`).

Bytes are modelled as `Nat` values below 256.  File systems, the remote
Bedrock API and the S3 store are modelled as explicit oracle functions.
Observable side effects (requests sent, files written, files opened, console
diagnostics, sleeps) are returned as explicit traces.
-/

/-! ## Base64 (model of Python `base64.b64encode` / `base64.b64decode`) -/

/-- The standard base64 alphabet, by sextet value: `A`-`Z`, `a`-`z`, `0`-`9`, `+`, `/`. -/
def b64Char (n : Nat) : Char :=
  if n < 26 then Char.ofNat (65 + n)
  else if n < 52 then Char.ofNat (97 + (n - 26))
  else if n < 62 then Char.ofNat (48 + (n - 52))
  else if n = 62 then '+'
  else '/'

/-- Inverse of the base64 alphabet: maps an alphabet character back to its
sextet value, `none` for characters outside the alphabet. -/
def b64CharVal (c : Char) : Option Nat :=
  if 'A' ≤ c ∧ c ≤ 'Z' then some (c.toNat - 65)
  else if 'a' ≤ c ∧ c ≤ 'z' then some (c.toNat - 71)
  else if '0' ≤ c ∧ c ≤ '9' then some (c.toNat + 4)
  else if c = '+' then some 62
  else if c = '/' then some 63
  else none

/-- Base64 encoding of a byte list, with `=` padding, as performed by
`base64.b64encode` (three bytes become four alphabet characters). -/
def b64Encode : List Nat → List Char
  | [] => []
  | [b1] =>
      [b64Char (b1 / 4), b64Char (b1 % 4 * 16), '=', '=']
  | [b1, b2] =>
      [b64Char (b1 / 4), b64Char (b1 % 4 * 16 + b2 / 16), b64Char (b2 % 16 * 4), '=']
  | b1 :: b2 :: b3 :: rest =>
      b64Char (b1 / 4) :: b64Char (b1 % 4 * 16 + b2 / 16) ::
        b64Char (b2 % 16 * 4 + b3 / 64) :: b64Char (b3 % 64) :: b64Encode rest

/-- First character of the input that the CPython base64 decoder counts as
valid — an alphabet character or the pad `=` — or `none` if there is none.
Models `binascii_find_valid`, used for the pad-sequence lookahead. -/
def nextB64Valid : List Char → Option Char
  | [] => none
  | c :: rest => if c = '=' ∨ (b64CharVal c).isSome then some c else nextB64Valid rest

/-- State machine of CPython `binascii.a2b_base64` in its default lenient
mode (`base64.b64decode` with `validate=False`, as both scripts call it):
`quad_pos` is the position in the current quartet of data characters (0-3),
`leftbits` the number of buffered bits (0, 2, 4 or 6), `leftchar` their
value, `acc` the bytes emitted so far.  Characters outside the alphabet are
discarded.  A pad at quartet position 3 — or at position 2 when the next
valid character is also a pad — ends decoding successfully with the bytes
emitted so far; a pad anywhere else is discarded.  Leftover bits at end of
input are the `binascii.Error` ("Incorrect padding"), which the scripts
catch. -/
def b64DecodeAux : List Char → Nat → Nat → Nat → List Nat → Option (List Nat)
  | [], _, leftbits, _, acc => if leftbits = 0 then some acc else none
  | c :: rest, quad_pos, leftbits, leftchar, acc =>
    if c = '=' then
      if 2 ≤ quad_pos ∧ (quad_pos = 3 ∨ nextB64Valid rest = some '=') then some acc
      else b64DecodeAux rest quad_pos leftbits leftchar acc
    else
      match b64CharVal c with
      | none => b64DecodeAux rest quad_pos leftbits leftchar acc
      | some v =>
          if 2 ≤ leftbits then
            b64DecodeAux rest ((quad_pos + 1) % 4) (leftbits - 2)
              ((leftchar * 64 + v) % 2 ^ (leftbits - 2))
              (acc ++ [(leftchar * 64 + v) / 2 ^ (leftbits - 2)])
          else
            b64DecodeAux rest ((quad_pos + 1) % 4) (leftbits + 6) (leftchar * 64 + v) acc

/-- Base64 decoding of a character list, as performed by `base64.b64decode`
in its default lenient mode: run the `a2b_base64` state machine from the
empty state; `none` models the raised `binascii.Error`. -/
def b64Decode (s : List Char) : Option (List Nat) := b64DecodeAux s 0 0 0 []

/-! ## Decimal rendering (model of Python `f"{index}"` formatting) -/

/-- Decimal digit character for `d < 10`. -/
def decDigitChar (d : Nat) : Char := Char.ofNat (48 + d)

/-- Decimal rendering of a natural number, most significant digit first,
modelling Python string interpolation of an `int`. -/
def decRepr (n : Nat) : List Char :=
  if _h : n < 10 then [decDigitChar n]
  else decRepr (n / 10) ++ [decDigitChar (n % 10)]
  termination_by n
  decreasing_by exact Nat.div_lt_self (by omega) (by omega)

/-- Value of a decimal digit character. -/
def decDigitVal (c : Char) : Nat := c.toNat - 48

/-- Reads a decimal digit string back to its value (left fold). -/
def decVal (cs : List Char) : Nat := cs.foldl (fun a c => a * 10 + decDigitVal c) 0

/-! ## Round-trip lemmas for the codecs -/

/-- Decoding an alphabet character recovers its sextet value. -/
theorem b64CharVal_b64Char : ∀ n, n < 64 → b64CharVal (b64Char n) = some n := by decide

/-- Alphabet characters are never the padding character. -/
theorem b64Char_ne_pad : ∀ n, n < 64 → b64Char n ≠ '=' := by decide

/-- Unfolding one alphabet-character step of the decoder state machine. -/
theorem b64DecodeAux_alpha_step (c : Char) (v : Nat) (hv : b64CharVal c = some v)
    (hne : c ≠ '=') (rest : List Char) (qp lb lc : Nat) (acc : List Nat) :
    b64DecodeAux (c :: rest) qp lb lc acc =
      if 2 ≤ lb then
        b64DecodeAux rest ((qp + 1) % 4) (lb - 2) ((lc * 64 + v) % 2 ^ (lb - 2))
          (acc ++ [(lc * 64 + v) / 2 ^ (lb - 2)])
      else b64DecodeAux rest ((qp + 1) % 4) (lb + 6) (lc * 64 + v) acc := by
  simp [b64DecodeAux, hne, hv]

/-- Running the decoder state machine over one full encoded quartet emits
exactly the three source bytes and returns to the empty state. -/
theorem b64DecodeAux_chunk (b1 b2 b3 : Nat) (hb1 : b1 < 256) (hb2 : b2 < 256)
    (hb3 : b3 < 256) (tail : List Char) (acc : List Nat) :
    b64DecodeAux (b64Char (b1 / 4) :: b64Char (b1 % 4 * 16 + b2 / 16) ::
        b64Char (b2 % 16 * 4 + b3 / 64) :: b64Char (b3 % 64) :: tail) 0 0 0 acc
      = b64DecodeAux tail 0 0 0 (acc ++ [b1, b2, b3]) := by
  rw [b64DecodeAux_alpha_step _ _ (b64CharVal_b64Char _ (by omega))
      (b64Char_ne_pad _ (by omega)) _ 0 0 0 acc]
  rw [if_neg (by omega)]
  rw [b64DecodeAux_alpha_step _ _ (b64CharVal_b64Char _ (by omega))
      (b64Char_ne_pad _ (by omega))]
  rw [if_pos (by omega)]
  rw [b64DecodeAux_alpha_step _ _ (b64CharVal_b64Char _ (by omega))
      (b64Char_ne_pad _ (by omega))]
  rw [if_pos (by omega)]
  rw [b64DecodeAux_alpha_step _ _ (b64CharVal_b64Char _ (by omega))
      (b64Char_ne_pad _ (by omega))]
  rw [if_pos (by omega)]
  norm_num
  have e1 : (b1 / 4 * 64 + (b1 % 4 * 16 + b2 / 16)) / 16 = b1 := by omega
  have e2 : ((b1 / 4 * 64 + (b1 % 4 * 16 + b2 / 16)) % 16 * 64
      + (b2 % 16 * 4 + b3 / 64)) / 4 = b2 := by omega
  have e3 : ((b1 / 4 * 64 + (b1 % 4 * 16 + b2 / 16)) % 16 * 64
      + (b2 % 16 * 4 + b3 / 64)) % 4 * 64 + b3 % 64 = b3 := by omega
  rw [Nat.mod_one, e1, e2, e3]

/-- Running the decoder state machine over the two-pad tail (one source
byte) emits that byte and terminates on the pad sequence. -/
theorem b64DecodeAux_tail2 (b1 : Nat) (hb1 : b1 < 256) (acc : List Nat) :
    b64DecodeAux (b64Char (b1 / 4) :: b64Char (b1 % 4 * 16) :: '=' :: '=' :: []) 0 0 0 acc
      = some (acc ++ [b1]) := by
  rw [b64DecodeAux_alpha_step _ _ (b64CharVal_b64Char _ (by omega))
      (b64Char_ne_pad _ (by omega))]
  rw [if_neg (by omega)]
  rw [b64DecodeAux_alpha_step _ _ (b64CharVal_b64Char _ (by omega))
      (b64Char_ne_pad _ (by omega))]
  rw [if_pos (by omega)]
  rw [b64DecodeAux]
  rw [if_pos rfl, if_pos (by exact ⟨by omega, Or.inr rfl⟩)]
  norm_num
  omega

/-- Running the decoder state machine over the one-pad tail (two source
bytes) emits both bytes and terminates on the pad. -/
theorem b64DecodeAux_tail1 (b1 b2 : Nat) (hb1 : b1 < 256) (hb2 : b2 < 256)
    (acc : List Nat) :
    b64DecodeAux (b64Char (b1 / 4) :: b64Char (b1 % 4 * 16 + b2 / 16) ::
        b64Char (b2 % 16 * 4) :: '=' :: []) 0 0 0 acc = some (acc ++ [b1, b2]) := by
  rw [b64DecodeAux_alpha_step _ _ (b64CharVal_b64Char _ (by omega))
      (b64Char_ne_pad _ (by omega))]
  rw [if_neg (by omega)]
  rw [b64DecodeAux_alpha_step _ _ (b64CharVal_b64Char _ (by omega))
      (b64Char_ne_pad _ (by omega))]
  rw [if_pos (by omega)]
  rw [b64DecodeAux_alpha_step _ _ (b64CharVal_b64Char _ (by omega))
      (b64Char_ne_pad _ (by omega))]
  rw [if_pos (by omega)]
  rw [b64DecodeAux]
  rw [if_pos rfl, if_pos (by exact ⟨by omega, Or.inl rfl⟩)]
  norm_num
  constructor
  · omega
  · omega

/-- Running the decoder state machine over a full encoding from the empty
state appends exactly the source bytes to the accumulator. -/
theorem b64DecodeAux_b64Encode (bs : List Nat) (h : ∀ b ∈ bs, b < 256) :
    ∀ acc : List Nat, b64DecodeAux (b64Encode bs) 0 0 0 acc = some (acc ++ bs) := by
  induction bs using b64Encode.induct with
  | case1 => intro acc; simp [b64Encode, b64DecodeAux]
  | case2 b1 =>
      intro acc
      rw [b64Encode]
      exact b64DecodeAux_tail2 b1 (h b1 (by simp)) acc
  | case3 b1 b2 =>
      intro acc
      rw [b64Encode]
      exact b64DecodeAux_tail1 b1 b2 (h b1 (by simp)) (h b2 (by simp)) acc
  | case4 b1 b2 b3 rest ih =>
      intro acc
      have hrest : ∀ b ∈ rest, b < 256 := fun b hb => h b (by simp [hb])
      rw [b64Encode]
      rw [b64DecodeAux_chunk b1 b2 b3 (h b1 (by simp)) (h b2 (by simp)) (h b3 (by simp))
        (b64Encode rest) acc]
      rw [ih hrest (acc ++ [b1, b2, b3])]
      simp

/-- Base64 decoding inverts base64 encoding on every byte list. -/
theorem b64Decode_b64Encode (bs : List Nat) (h : ∀ b ∈ bs, b < 256) :
    b64Decode (b64Encode bs) = some bs := by
  rw [b64Decode, b64DecodeAux_b64Encode bs h []]
  simp

/-- Reading a decimal digit character back yields its digit. -/
theorem decDigitVal_decDigitChar : ∀ d, d < 10 → decDigitVal (decDigitChar d) = d := by decide

/-- Folding the decimal reader over `decRepr n` from accumulator `a`. -/
theorem foldl_decRepr (n : Nat) :
    ∀ a : Nat, List.foldl (fun a c => a * 10 + decDigitVal c) a (decRepr n)
      = a * 10 ^ (decRepr n).length + n := by
  induction n using Nat.strong_induction_on with
  | _ n ih =>
    intro a
    by_cases h : n < 10
    · rw [decRepr, dif_pos h]
      simp only [List.foldl, List.length_cons, List.length_nil, Nat.zero_add, pow_one,
        decDigitVal_decDigitChar n h]
    · rw [decRepr, dif_neg h, List.foldl_append,
        ih (n / 10) (Nat.div_lt_self (by omega) (by omega))]
      simp only [List.foldl, List.length_append, List.length_cons, List.length_nil,
        Nat.zero_add, pow_succ, decDigitVal_decDigitChar (n % 10) (by omega)]
      have hdm : n / 10 * 10 + n % 10 = n := by omega
      calc (a * 10 ^ (decRepr (n / 10)).length + n / 10) * 10 + n % 10
          = a * (10 ^ (decRepr (n / 10)).length * 10) + (n / 10 * 10 + n % 10) := by ring
        _ = a * (10 ^ (decRepr (n / 10)).length * 10) + n := by rw [hdm]

/-- The decimal reader inverts decimal rendering. -/
theorem decVal_decRepr (n : Nat) : decVal (decRepr n) = n := by
  have := foldl_decRepr n 0
  simpa [decVal] using this

/-- Decimal rendering is injective. -/
theorem decRepr_inj {m n : Nat} (h : decRepr m = decRepr n) : m = n := by
  have hm := decVal_decRepr m
  rw [h, decVal_decRepr] at hm
  exact hm.symm

/-! ## The S3 polling loop `check_and_download_video`
(`image_generator_virtual_tryon.py`, lines 226-253)

The store is an oracle `store : Nat → S3CheckResult` giving the outcome of
the `head_object` call on each successive loop iteration.  The loop itself is
unbounded; we run it on explicit fuel, with a dedicated result constructor
`stillPolling` marking that the loop has not exited within the given fuel
(i.e. it is still running). -/

/-- Outcome of one `head_object` existence check: success, a `ClientError`
with code 404, or a `ClientError` with any other code. -/
inductive S3CheckResult where
  | found
  | notFound404
  | otherError (msg : String)
deriving DecidableEq

/-- Observable events of the polling loop: a `head_object` check, a
`time.sleep` of the given number of seconds, the `download_file` call, and the
error diagnostic printed in the non-404 branch. -/
inductive PollEvent where
  | check
  | sleep (secs : Nat)
  | download
  | errLog (msg : String)
deriving DecidableEq

/-- Result of running the polling loop on finite fuel. -/
inductive PollResult where
  /-- The function returned `local_filename` after downloading. -/
  | downloaded (local_filename : String)
  /-- The function returned `None` (non-404 `ClientError` branch). -/
  | returnedNone
  /-- Fuel ran out with the loop still going: no exit happened. -/
  | stillPolling
deriving DecidableEq

/-- One-to-one model of the `while True` loop of `check_and_download_video`:
`attempt` counts `head_object` calls made so far, `ts` is the
`datetime.now()` timestamp string at download time.  Returns the function
result together with the trace of observable events. -/
def check_and_download_video (store : Nat → S3CheckResult) (ts : String) :
    Nat → Nat → PollResult × List PollEvent
  | 0, _ => (.stillPolling, [])
  | fuel + 1, attempt =>
    match store attempt with
    | .found =>
        (.downloaded ("virtual_tryon_video_" ++ ts ++ ".mp4"), [.check, .download])
    | .notFound404 =>
        let r := check_and_download_video store ts fuel (attempt + 1)
        (r.1, .check :: .sleep 10 :: r.2)
    | .otherError msg =>
        (.returnedNone, [.check, .errLog msg])

/-- Trace of `N` unsuccessful poll iterations: a not-found check followed by a
ten-second sleep, `N` times. -/
def notFoundTrace (N : Nat) : List PollEvent :=
  (List.replicate N [PollEvent.check, PollEvent.sleep 10]).flatten

/-- Generalisation of the poller success property over the starting attempt. -/
theorem check_and_download_video_found_from (store : Nat → S3CheckResult) (ts : String) :
    ∀ (N a fuel : Nat), N < fuel →
      (∀ i, i < N → store (a + i) = .notFound404) →
      store (a + N) = .found →
      check_and_download_video store ts fuel a
        = (.downloaded ("virtual_tryon_video_" ++ ts ++ ".mp4"),
           notFoundTrace N ++ [PollEvent.check, PollEvent.download]) := by
  intro N
  induction N with
  | zero =>
      intro a fuel hfuel _ hfound
      obtain ⟨f, rfl⟩ : ∃ f, fuel = f + 1 := ⟨fuel - 1, by omega⟩
      rw [check_and_download_video]
      rw [show store a = .found from by simpa using hfound]
      simp [notFoundTrace]
  | succ N ih =>
      intro a fuel hfuel h404 hfound
      obtain ⟨f, rfl⟩ : ∃ f, fuel = f + 1 := ⟨fuel - 1, by omega⟩
      rw [check_and_download_video]
      rw [show store a = .notFound404 from by simpa using h404 0 (by omega)]
      rw [ih (a + 1) f (by omega)
        (fun i hi => by rw [show a + 1 + i = a + (i + 1) from by omega]; exact h404 (i + 1) (by omega))
        (by rw [show a + 1 + N = a + (N + 1) from by omega]; exact hfound)]
      simp [notFoundTrace, List.replicate_succ]

/-- Generalisation of the poller fatal-error property over the starting attempt. -/
theorem check_and_download_video_error_from (store : Nat → S3CheckResult) (ts msg : String) :
    ∀ (N a fuel : Nat), N < fuel →
      (∀ i, i < N → store (a + i) = .notFound404) →
      store (a + N) = .otherError msg →
      check_and_download_video store ts fuel a
        = (.returnedNone, notFoundTrace N ++ [PollEvent.check, PollEvent.errLog msg]) := by
  intro N
  induction N with
  | zero =>
      intro a fuel hfuel _ herr
      obtain ⟨f, rfl⟩ : ∃ f, fuel = f + 1 := ⟨fuel - 1, by omega⟩
      rw [check_and_download_video]
      rw [show store a = .otherError msg from by simpa using herr]
      simp [notFoundTrace]
  | succ N ih =>
      intro a fuel hfuel h404 herr
      obtain ⟨f, rfl⟩ : ∃ f, fuel = f + 1 := ⟨fuel - 1, by omega⟩
      rw [check_and_download_video]
      rw [show store a = .notFound404 from by simpa using h404 0 (by omega)]
      rw [ih (a + 1) f (by omega)
        (fun i hi => by rw [show a + 1 + i = a + (i + 1) from by omega]; exact h404 (i + 1) (by omega))
        (by rw [show a + 1 + N = a + (N + 1) from by omega]; exact herr)]
      simp [notFoundTrace, List.replicate_succ]

/-- Generalisation of the poller non-exit property over the starting attempt. -/
theorem check_and_download_video_running_from (store : Nat → S3CheckResult) (ts : String) :
    ∀ (fuel a : Nat),
      (∀ i, i < fuel → store (a + i) = .notFound404) →
      check_and_download_video store ts fuel a = (.stillPolling, notFoundTrace fuel) := by
  intro fuel
  induction fuel with
  | zero => intro a _; rfl
  | succ f ih =>
      intro a h404
      rw [check_and_download_video]
      rw [show store a = .notFound404 from by simpa using h404 0 (by omega)]
      rw [ih (a + 1)
        (fun i hi => by rw [show a + 1 + i = a + (i + 1) from by omega]; exact h404 (i + 1) (by omega))]
      simp [notFoundTrace, List.replicate_succ]

/-! ## The virtual try-on script (`image_generator_virtual_tryon.py`) -/

/-- Model of Python `str.lower()` on the ASCII inputs the scripts read:
lowercase each character. -/
def pyLower (s : String) : String := String.mk (s.data.map Char.toLower)

namespace Tryon

/-- The JSON request body built by `generate_virtual_tryon` (lines 75-89):
`taskType`, `virtualTryOnParams` (source image, reference image, mask type,
garment-based mask class, merge style) and `imageGenerationConfig`. -/
structure TryOnRequest where
  taskType : String
  sourceImage : String
  referenceImage : String
  maskType : String
  garmentClass : String
  mergeStyle : String
  numberOfImages : Nat
  quality : String
deriving DecidableEq

/-- Outcome of the remote `bedrock.invoke_model` call: either a parsed
response body whose `images` field is present (`some` list) or absent
(`none`), or a raised exception. -/
inductive InvokeOutcome where
  | success (images : Option (List String))
  | raised (msg : String)

/-- Console diagnostics of `generate_virtual_tryon`. -/
inductive GenLog where
  /-- `print(len(response_body['images']))` (line 101). -/
  | lenPrinted (n : Nat)
  /-- `print("No image generated in response")` (line 105). -/
  | noImageMsg
  /-- `print(f"Error generating virtual try-on: ...")` in the `except`
  branch (line 109); carries the exception text. -/
  | genError (msg : String)
deriving DecidableEq

/-- `encode_image` (lines 55-62): read the file and base64-encode it to a
UTF-8 string; `none` when the read fails.  (The diagnostic printed in its
`except` branch is not tracked.)  The filesystem is the oracle
`fs : path → Option bytes`. -/
def encode_image (fs : String → Option (List Nat)) (image_path : String) : Option String :=
  (fs image_path).map (fun bytes => String.mk (b64Encode bytes))

/-- The request body literal of `generate_virtual_tryon` (lines 75-89). -/
def buildTryOnBody (person_image garment_image garment_class : String) : TryOnRequest :=
  { taskType := "VIRTUAL_TRY_ON"
    sourceImage := person_image
    referenceImage := garment_image
    maskType := "GARMENT"
    garmentClass := garment_class
    mergeStyle := "DETAILED"
    numberOfImages := 1
    quality := "standard" }

/-- `generate_virtual_tryon` (lines 64-110).  Returns the function result
together with the list of request bodies sent and the console diagnostics.
Note: `print(len(response_body['images']))` (line 101) runs before the
`'images' in response_body` membership guard (line 102), so an absent
`images` field raises `KeyError`, which the surrounding `except` catches. -/
def generate_virtual_tryon (fs : String → Option (List Nat))
    (person_image_path garment_image_path garment_class : String)
    (invoke : TryOnRequest → InvokeOutcome) :
    Option String × List TryOnRequest × List GenLog :=
  match encode_image fs person_image_path, encode_image fs garment_image_path with
  | some person_image, some garment_image =>
      -- `if not person_image or not garment_image` (line 72): Python falsiness
      -- also rejects the empty string.
      if person_image = "" ∨ garment_image = "" then (none, [], [])
      else
        let body := buildTryOnBody person_image garment_image garment_class
        match invoke body with
        | .raised msg => (none, [body], [.genError msg])
        | .success imagesField =>
            match imagesField with
            | none => (none, [body], [.genError "KeyError: images"])
            | some [] => (none, [body], [.lenPrinted 0, .noImageMsg])
            | some (img :: rest) => (some img, [body], [.lenPrinted (rest.length + 1)])
  | _, _ => (none, [], [])

/-- Observable effects of `save_and_open_image`: the returned value, the
files written (path, bytes), the files opened with `subprocess.run(['open',
...])`, and the console messages. -/
structure SaveEffects where
  result : Option String
  written : List (String × List Nat)
  opened : List String
  logs : List String
deriving DecidableEq

/-- `save_and_open_image` (lines 112-136): decode the base64 payload, write
it to `virtual_tryon_<timestamp>.png` under the working directory `cwd`, and
open it.  Decoding is the modelled failure source of the `try` block; the
write itself is modelled as always succeeding. -/
def save_and_open_image (image_data : String) (ts cwd : String) : SaveEffects :=
  match b64Decode image_data.data with
  | none =>
      { result := none, written := [], opened := [],
        logs := ["Error saving/opening image"] }
  | some image_bytes =>
      let filename := "virtual_tryon_" ++ ts ++ ".png"
      let filepath := cwd ++ "/" ++ filename
      { result := some filepath
        written := [(filepath, image_bytes)]
        opened := [filepath]
        logs := ["Image saved as: " ++ filename] }

/-- How `main` ends, for the portion of the flow from image generation
(line 282) onward. -/
inductive MainOutcome where
  /-- `main` ran to completion without an uncaught exception. -/
  | ok
  /-- Early `return` after `list_s3_buckets` came back empty (line 300). -/
  | noBuckets
  /-- An exception escaped `main` (the script has no handler around it). -/
  | unhandledError (msg : String)
  /-- `generate_video` returned `None`; main printed a failure and fell
  through. -/
  | videoStartFail
deriving DecidableEq

/-- `main` (lines 282-331), modelled from the point where
`generate_virtual_tryon` has produced `image_data`.  The local variable
`filepath` is bound only inside the `if image_data:` branch (line 286), so
its binding state is `Option (Option String)`: `none` while unbound,
`some r` once assigned the result `r` of `save_and_open_image`.  Inputs
`ts`/`cwd` feed the save step, `do_video` is the raw answer to the video
question, `buckets` the result of `list_s3_buckets`, and `video_arn` the
result of `generate_video` when it is reached with a usable path.  Returns
the outcome and the list of files written. -/
def main_flow (image_data : Option String) (ts cwd : String) (do_video : String)
    (buckets : List String) (video_arn : Option String) :
    MainOutcome × List (String × List Nat) :=
  let phase : Option (Option String) × List (String × List Nat) :=
    match image_data with
    | none => (none, [])
    | some d =>
        let e := save_and_open_image d ts cwd
        (some e.result, e.written)
  if pyLower do_video = "y" ∨ pyLower do_video = "yes" ∨ pyLower do_video = "ok" then
    if buckets.isEmpty then (.noBuckets, phase.2)
    else
      match phase.1 with
      | none =>
          -- line 317 references `filepath`, never assigned: NameError.
          (.unhandledError "NameError: name filepath is not defined", phase.2)
      | some none =>
          -- `filepath` is `None`; `generate_video` opens it outside its
          -- `try` block (line 151): TypeError propagates out of `main`.
          (.unhandledError "TypeError: expected str, bytes or os.PathLike object, not NoneType", phase.2)
      | some (some _) =>
          match video_arn with
          | none => (.videoStartFail, phase.2)
          | some _ => (.ok, phase.2)
  else (.ok, phase.2)

end Tryon

/-! ## The room/furniture script (`image_generator_virtual_tryon_room.py`) -/

namespace Room

/-- `NUMBER_OF_IMAGES = 3` (line 10). -/
def NUMBER_OF_IMAGES : Nat := 3

/-- The JSON request body built by the room variant of
`generate_virtual_tryon` (lines 32-48): prompt-based mask instead of the
garment-based one. -/
structure RoomRequest where
  taskType : String
  sourceImage : String
  referenceImage : String
  maskType : String
  maskShape : String
  maskPrompt : String
  numberOfImages : Nat
  quality : String
deriving DecidableEq

/-- The request body literal of the room `generate_virtual_tryon`. -/
def buildRoomBody (room_image furniture_image prompt_text : String) : RoomRequest :=
  { taskType := "VIRTUAL_TRY_ON"
    sourceImage := room_image
    referenceImage := furniture_image
    maskType := "PROMPT"
    maskShape := "DEFAULT"
    maskPrompt := prompt_text
    numberOfImages := NUMBER_OF_IMAGES
    quality := "standard" }

/-- Observable effects of `save_and_open_images`: files written, files
opened, and whether the loop ended with the early `return None` of its
`except` branch (line 98). -/
structure MultiSaveEffects where
  written : List (String × List Nat)
  opened : List String
  earlyReturn : Bool
deriving DecidableEq

/-- The filename built on iteration `index` of `save_and_open_images`
(lines 80-82): `virtual_tryon_<timestamp>_<index>.png`, joined to the
working directory. -/
def imageFilepath (ts cwd : String) (index : Nat) : String :=
  cwd ++ "/" ++ ("virtual_tryon_" ++ ts ++ "_" ++ String.mk (decRepr index) ++ ".png")

/-- The `for index, image_data in enumerate(images_data)` loop of
`save_and_open_images` (lines 74-98), from loop counter `index` on.
`tsAt` gives the `datetime.now()` timestamp string observed on each
iteration.  A decode failure triggers the `except` branch, which `return`s
from the whole function: no later image is processed. -/
def save_loop (tsAt : Nat → String) (cwd : String) :
    Nat → List String → MultiSaveEffects
  | _, [] => { written := [], opened := [], earlyReturn := false }
  | index, image_data :: rest =>
    match b64Decode image_data.data with
    | none => { written := [], opened := [], earlyReturn := true }
    | some image_bytes =>
        let filepath := imageFilepath (tsAt index) cwd index
        let r := save_loop tsAt cwd (index + 1) rest
        { written := (filepath, image_bytes) :: r.written
          opened := filepath :: r.opened
          earlyReturn := r.earlyReturn }

/-- `save_and_open_images` (lines 71-98): the loop starting at index 0. -/
def save_and_open_images (tsAt : Nat → String) (cwd : String)
    (images_data : List String) : MultiSaveEffects :=
  save_loop tsAt cwd 0 images_data

/-- Python's default `str.strip` whitespace set (ASCII portion used by the
script's inputs): space, tab, newline, carriage return, vertical tab, form
feed. -/
def pyWhitespace (c : Char) : Bool :=
  c = ' ' ∨ c = Char.ofNat 9 ∨ c = Char.ofNat 10 ∨ c = Char.ofNat 13 ∨
    c = Char.ofNat 11 ∨ c = Char.ofNat 12

/-- Model of Python `str.strip()`: drop leading and trailing whitespace. -/
def pyStrip (s : String) : String :=
  String.mk (((s.data.dropWhile pyWhitespace).reverse.dropWhile pyWhitespace).reverse)

/-- Lines 117-119 of `main`: the furniture-change instruction is read and
stripped, and if the stripped text is falsy (empty) it is replaced by the
default `"replace sofa"`. -/
def resolvePromptText (raw : String) : String :=
  let prompt_text := pyStrip raw
  if pyStrip prompt_text = "" then "replace sofa" else prompt_text

end Room

/-! ## Fixtures for concrete witnesses -/

/-- A store where the object is absent for the first two checks and present
from the third check on. -/
def storeFoundAfterTwo : Nat → S3CheckResult :=
  fun i => if i < 2 then .notFound404 else .found

/-- A store where the object is absent for the first check and the second
check raises a non-404 `ClientError`. -/
def storeErrorAfterOne : Nat → S3CheckResult :=
  fun i => if i < 1 then .notFound404 else .otherError "AccessDenied"

/-- A store where the object never appears: every check is a 404. -/
def storeAlways404 : Nat → S3CheckResult := fun _ => .notFound404

/-- A filesystem whose every path holds the one-byte file `[1]`. -/
def fsOneByte : String → Option (List Nat) := fun _ => some [1]

/-- A filesystem whose every path holds the bytes `[0, 127, 255]`. -/
def fsThreeBytes : String → Option (List Nat) := fun _ => some [0, 127, 255]

/-- The filesystem of the end-to-end scenario: `person.png` holds `p`,
`shirt.png` holds `g`, nothing else exists. -/
def scenarioFs (p g : List Nat) : String → Option (List Nat) :=
  fun path =>
    if path = "person.png" then some p
    else if path = "shirt.png" then some g
    else none

/-! ## Claims -/

/-- **C1.** For every storage state in which the object is absent for the
first `N` existence checks and present from check `N+1` onward,
`check_and_download_video` performs exactly `N` not-found checks, each
followed by a fixed 10-second sleep, and on the `N+1`-th check downloads the
object and returns a local timestamp-named filename. -/
theorem C1_poller_exact_check_count (store : Nat → S3CheckResult) (ts : String)
    (N fuel : Nat) (hfuel : N < fuel)
    (h404 : ∀ i, i < N → store i = .notFound404)
    (hfound : store N = .found) :
    check_and_download_video store ts fuel 0
      = (.downloaded ("virtual_tryon_video_" ++ ts ++ ".mp4"),
         notFoundTrace N ++ [PollEvent.check, PollEvent.download]) :=
  check_and_download_video_found_from store ts N 0 fuel hfuel
    (fun i hi => by simpa using h404 i hi) (by simpa using hfound)

/-- Witness for C1: the object appears on the third check. -/
theorem C1_poller_exact_check_count_witness :
    check_and_download_video storeFoundAfterTwo "T" 3 0
      = (.downloaded ("virtual_tryon_video_" ++ "T" ++ ".mp4"),
         notFoundTrace 2 ++ [PollEvent.check, PollEvent.download]) :=
  C1_poller_exact_check_count storeFoundAfterTwo "T" 2 3 (by omega)
    (by decide) (by decide)

/-- **C2.** For every store error signal that is not a 404 condition, the
poller stops on the first such error without any further retry, prints a
diagnostic, and returns `None` to its caller instead of propagating the
exception. -/
theorem C2_poller_fatal_stop (store : Nat → S3CheckResult) (ts msg : String)
    (N fuel : Nat) (hfuel : N < fuel)
    (h404 : ∀ i, i < N → store i = .notFound404)
    (herr : store N = .otherError msg) :
    check_and_download_video store ts fuel 0
      = (.returnedNone, notFoundTrace N ++ [PollEvent.check, PollEvent.errLog msg]) :=
  check_and_download_video_error_from store ts msg N 0 fuel hfuel
    (fun i hi => by simpa using h404 i hi) (by simpa using herr)

/-- Witness for C2: a non-404 error on the second check. -/
theorem C2_poller_fatal_stop_witness :
    check_and_download_video storeErrorAfterOne "T" 5 0
      = (.returnedNone,
         notFoundTrace 1 ++ [PollEvent.check, PollEvent.errLog "AccessDenied"]) :=
  C2_poller_fatal_stop storeErrorAfterOne "T" "AccessDenied" 1 5 (by omega)
    (by decide) (by decide)

/-- **C3.** The polling loop never exits in any state other than "artifact
found" or "fatal non-404 error": as long as every existence check yields a
404, the loop is still polling after any number of iterations — there is no
maximum attempt count and no cancellation path. -/
theorem C3_poller_never_exits_on_404 (store : Nat → S3CheckResult) (ts : String)
    (fuel : Nat) (h404 : ∀ i, i < fuel → store i = .notFound404) :
    check_and_download_video store ts fuel 0 = (.stillPolling, notFoundTrace fuel) :=
  check_and_download_video_running_from store ts fuel 0
    (fun i hi => by simpa using h404 i hi)

/-- Witness for C3: after five iterations against an always-404 store the
loop is still polling. -/
theorem C3_poller_never_exits_on_404_witness :
    check_and_download_video storeAlways404 "T" 5 0 = (.stillPolling, notFoundTrace 5) :=
  C3_poller_never_exits_on_404 storeAlways404 "T" 5 (by decide)

/-- Encoding a nonempty byte list never yields the empty string. -/
theorem b64Encode_ne_nil : ∀ bs : List Nat, bs ≠ [] → b64Encode bs ≠ []
  | [], h => absurd rfl h
  | [_], _ => by simp [b64Encode]
  | [_, _], _ => by simp [b64Encode]
  | _ :: _ :: _ :: _, _ => by simp [b64Encode]

/-- **C4 (code evaluated at the failing input).** On a response whose
`images` field is absent, `generate_virtual_tryon` returns `None` through the
generic `except` branch — the `KeyError` raised by
`print(len(response_body['images']))` — so the dedicated
"No image generated in response" diagnostic is never printed; on a response
with an empty `images` list it returns `None` with that diagnostic; in both
cases the caller of `main` writes no file. -/
theorem C4_absent_images_hits_keyerror :
    (Tryon.generate_virtual_tryon fsOneByte "person.png" "shirt.png" "UPPER_BODY"
        (fun _ => .success none)
      = (none,
         [Tryon.buildTryOnBody (String.mk (b64Encode [1])) (String.mk (b64Encode [1]))
            "UPPER_BODY"],
         [.genError "KeyError: images"])) ∧
    (Tryon.generate_virtual_tryon fsOneByte "person.png" "shirt.png" "UPPER_BODY"
        (fun _ => .success (some []))
      = (none,
         [Tryon.buildTryOnBody (String.mk (b64Encode [1])) (String.mk (b64Encode [1]))
            "UPPER_BODY"],
         [.lenPrinted 0, .noImageMsg])) ∧
    (Tryon.main_flow none "T" "/work" "n" [] none).2 = [] := by
  refine ⟨?_, ?_, rfl⟩ <;> rfl

/-- **C5.** For every byte sequence readable from a valid local input path,
applying `encode_image` (base64 encoding to a UTF-8 string) and then the
persister's decoding step (base64 decode) yields exactly the original file
contents, byte for byte. -/
theorem C5_encode_decode_roundtrip (fs : String → Option (List Nat)) (path : String)
    (bytes : List Nat) (hfs : fs path = some bytes) (hb : ∀ b ∈ bytes, b < 256) :
    ∃ s, Tryon.encode_image fs path = some s ∧ b64Decode s.data = some bytes := by
  refine ⟨String.mk (b64Encode bytes), ?_, ?_⟩
  · simp [Tryon.encode_image, hfs]
  · simpa using b64Decode_b64Encode bytes hb

/-- Witness for C5: the file `[0, 127, 255]` survives the round trip. -/
theorem C5_encode_decode_roundtrip_witness :
    ∃ s, Tryon.encode_image fsThreeBytes "person.png" = some s ∧
      b64Decode s.data = some [0, 127, 255] :=
  C5_encode_decode_roundtrip fsThreeBytes "person.png" [0, 127, 255] rfl (by decide)

/-- **C6.** End-to-end scenario: inputs `person.png`, `shirt.png`, garment
class `UPPER_BODY` — the request body is built with taskType
`VIRTUAL_TRY_ON`, the two base64 payloads as `sourceImage` and
`referenceImage`, and a garment-based mask with garmentClass `UPPER_BODY`;
given a synchronous response with exactly one result, that result is
returned, then decoded and written to `virtual_tryon_<timestamp>.png` under
the working directory and opened. -/
theorem C6_end_to_end (p g : List Nat) (r : String) (bytes : List Nat) (ts cwd : String)
    (hp : p ≠ []) (hg : g ≠ [])
    (hr : b64Decode r.data = some bytes) :
    Tryon.generate_virtual_tryon (scenarioFs p g) "person.png" "shirt.png" "UPPER_BODY"
        (fun _ => .success (some [r]))
      = (some r,
         [{ taskType := "VIRTUAL_TRY_ON"
            sourceImage := String.mk (b64Encode p)
            referenceImage := String.mk (b64Encode g)
            maskType := "GARMENT"
            garmentClass := "UPPER_BODY"
            mergeStyle := "DETAILED"
            numberOfImages := 1
            quality := "standard" }],
         [.lenPrinted 1]) ∧
    Tryon.save_and_open_image r ts cwd
      = { result := some (cwd ++ "/" ++ ("virtual_tryon_" ++ ts ++ ".png"))
          written := [(cwd ++ "/" ++ ("virtual_tryon_" ++ ts ++ ".png"), bytes)]
          opened := [cwd ++ "/" ++ ("virtual_tryon_" ++ ts ++ ".png")]
          logs := ["Image saved as: " ++ ("virtual_tryon_" ++ ts ++ ".png")] } := by
  constructor
  · have hep : Tryon.encode_image (scenarioFs p g) "person.png"
        = some (String.mk (b64Encode p)) := by
      simp [Tryon.encode_image, scenarioFs]
    have heg : Tryon.encode_image (scenarioFs p g) "shirt.png"
        = some (String.mk (b64Encode g)) := by
      simp [Tryon.encode_image, scenarioFs]
    have hne : ¬(String.mk (b64Encode p) = "" ∨ String.mk (b64Encode g) = "") := by
      rintro (hh | hh)
      · exact b64Encode_ne_nil p hp (congrArg String.data hh)
      · exact b64Encode_ne_nil g hg (congrArg String.data hh)
    rw [Tryon.generate_virtual_tryon, hep, heg]
    simp [hne, Tryon.buildTryOnBody]
  · rw [Tryon.save_and_open_image, hr]

/-- Witness for C6: one-byte person and garment files and the valid single
result payload encoding `[3]`. -/
theorem C6_end_to_end_witness :
    Tryon.generate_virtual_tryon (scenarioFs [1] [2]) "person.png" "shirt.png" "UPPER_BODY"
        (fun _ => .success (some [String.mk (b64Encode [3])]))
      = (some (String.mk (b64Encode [3])),
         [{ taskType := "VIRTUAL_TRY_ON"
            sourceImage := String.mk (b64Encode [1])
            referenceImage := String.mk (b64Encode [2])
            maskType := "GARMENT"
            garmentClass := "UPPER_BODY"
            mergeStyle := "DETAILED"
            numberOfImages := 1
            quality := "standard" }],
         [.lenPrinted 1]) ∧
    Tryon.save_and_open_image (String.mk (b64Encode [3])) "T" "/work"
      = { result := some ("/work" ++ "/" ++ ("virtual_tryon_" ++ "T" ++ ".png"))
          written := [("/work" ++ "/" ++ ("virtual_tryon_" ++ "T" ++ ".png"), [3])]
          opened := ["/work" ++ "/" ++ ("virtual_tryon_" ++ "T" ++ ".png")]
          logs := ["Image saved as: " ++ ("virtual_tryon_" ++ "T" ++ ".png")] } :=
  C6_end_to_end [1] [2] (String.mk (b64Encode [3])) [3] "T" "/work"
    (by decide) (by decide) (by decide)

/-- The filenames built by `save_and_open_images` for a fixed timestamp are
injective in the loop index, because the index is appended to the name. -/
theorem imageFilepath_inj (ts cwd : String) : Function.Injective (Room.imageFilepath ts cwd) := by
  intro i j h
  apply decRepr_inj
  have hd := congrArg String.data h
  simp only [Room.imageFilepath, String.data_append, List.append_assoc] at hd
  have h1 := List.append_cancel_left hd
  have h2 := List.append_cancel_left h1
  have h3 := List.append_cancel_left h2
  have h4 := List.append_cancel_left h3
  have h5 := List.append_cancel_left h4
  exact List.append_cancel_right h5

/-- When every iteration observes the same timestamp, the names written by
the save loop from index `idx` are the index-named files of a contiguous
index range. -/
theorem save_loop_written_names (tsAt : Nat → String) (ts cwd : String)
    (hsame : ∀ i, tsAt i = ts) :
    ∀ (images : List String) (idx : Nat),
      ∃ k, (Room.save_loop tsAt cwd idx images).written.map Prod.fst
        = (List.range' idx k).map (Room.imageFilepath ts cwd) := by
  intro images
  induction images with
  | nil => intro idx; exact ⟨0, rfl⟩
  | cons d rest ih =>
      intro idx
      rw [Room.save_loop]
      cases hdec : b64Decode d.data with
      | none => exact ⟨0, by simp [hdec]⟩
      | some bytes =>
          obtain ⟨k, hk⟩ := ih (idx + 1)
          exact ⟨k + 1, by simp [hdec, hk, hsame idx, List.range'_succ]⟩

/-- **C7.** In the multi-image variant, the filenames produced for the
artifacts of a single run are pairwise distinct even when all are saved
within the same second (all iterations observe the same timestamp), because
each timestamp-derived filename carries the appended per-image index. -/
theorem C7_filenames_pairwise_distinct (tsAt : Nat → String) (ts cwd : String)
    (images : List String) (hsame : ∀ i, tsAt i = ts) :
    ((Room.save_and_open_images tsAt cwd images).written.map Prod.fst).Nodup := by
  obtain ⟨k, hk⟩ := save_loop_written_names tsAt ts cwd hsame images 0
  rw [Room.save_and_open_images, hk]
  exact List.Nodup.map (imageFilepath_inj ts cwd) (List.nodup_range' 0 k)

/-- Witness for C7: two identical payloads saved in the same second still get
distinct filenames. -/
theorem C7_filenames_pairwise_distinct_witness :
    ((Room.save_and_open_images (fun _ => "T") "/work" ["AAAA", "AAAA"]).written.map
      Prod.fst).Nodup :=
  C7_filenames_pairwise_distinct (fun _ => "T") "T" "/work" ["AAAA", "AAAA"] (fun _ => rfl)

/-- **C8.** In the try-on script's `main`, if image generation returns an
absent result — or saving fails, leaving `filepath = None` — and the user
answers yes to video creation, the video step references `filepath`, which is
unbound (or `None`), so the run ends with an unhandled error instead of a
graceful abort. -/
theorem C8_undefined_filepath_unhandled (ts cwd do_v : String) (buckets : List String)
    (arn : Option String)
    (hv : pyLower do_v = "y" ∨ pyLower do_v = "yes" ∨ pyLower do_v = "ok")
    (hb : buckets ≠ []) :
    (Tryon.main_flow none ts cwd do_v buckets arn).1
        = .unhandledError "NameError: name filepath is not defined" ∧
    ∀ d : String, b64Decode d.data = none →
      (Tryon.main_flow (some d) ts cwd do_v buckets arn).1
        = .unhandledError "TypeError: expected str, bytes or os.PathLike object, not NoneType" := by
  have hempty : buckets.isEmpty = false := by
    cases buckets with
    | nil => exact absurd rfl hb
    | cons x xs => rfl
  refine ⟨?_, fun d hd => ?_⟩
  · rw [Tryon.main_flow.eq_def, if_pos hv]
    simp [hempty]
  · rw [Tryon.main_flow.eq_def, if_pos hv]
    simp [hempty, Tryon.save_and_open_image, hd]

/-- Witness for C8: generation fails (or saving fails on the payload `"QQ"`,
whose two data characters are an incorrect-padding `binascii.Error`), the
user answers `y`, one bucket exists — `main` ends unhandled. -/
theorem C8_undefined_filepath_unhandled_witness :
    (Tryon.main_flow none "T" "/work" "y" ["bucket"] none).1
        = .unhandledError "NameError: name filepath is not defined" ∧
    (Tryon.main_flow (some "QQ") "T" "/work" "y" ["bucket"] none).1
        = .unhandledError "TypeError: expected str, bytes or os.PathLike object, not NoneType" :=
  ⟨(C8_undefined_filepath_unhandled "T" "/work" "y" ["bucket"] none
      (Or.inl (by decide)) (by decide)).1,
   (C8_undefined_filepath_unhandled "T" "/work" "y" ["bucket"] none
      (Or.inl (by decide)) (by decide)).2 "QQ" (by decide)⟩

/-- The save loop of `save_and_open_images`, started at any index, aborts on
the first undecodable payload: everything before it is written and opened,
nothing at or after it is. -/
theorem save_loop_abort (tsAt : Nat → String) (cwd : String) (bad : String)
    (post : List String) (hbad : b64Decode bad.data = none) :
    ∀ (pre : List String) (idx : Nat), (∀ d ∈ pre, (b64Decode d.data).isSome) →
      (Room.save_loop tsAt cwd idx (pre ++ bad :: post)).earlyReturn = true ∧
      (Room.save_loop tsAt cwd idx (pre ++ bad :: post)).written.length = pre.length ∧
      (Room.save_loop tsAt cwd idx (pre ++ bad :: post)).opened.length = pre.length := by
  intro pre
  induction pre with
  | nil => intro idx _; rw [List.nil_append, Room.save_loop]; simp [hbad]
  | cons d rest ih =>
      intro idx hpre
      obtain ⟨bts, hbts⟩ := Option.isSome_iff_exists.1 (hpre d (by simp))
      have hr := ih (idx + 1) (fun x hx => hpre x (by simp [hx]))
      rw [List.cons_append, Room.save_loop]
      simp [hbts, hr.1, hr.2.1, hr.2.2]

/-- **C9.** In `save_and_open_images`, a decode failure on the `k`-th image
causes an immediate return from the whole loop: exactly the `k` earlier
images are saved and opened, every image from index `k` on is neither saved
nor opened, and the function takes its early-return path — there is no
per-image recovery. -/
theorem C9_decode_failure_aborts_loop (tsAt : Nat → String) (cwd : String)
    (pre : List String) (bad : String) (post : List String)
    (hpre : ∀ d ∈ pre, (b64Decode d.data).isSome)
    (hbad : b64Decode bad.data = none) :
    (Room.save_and_open_images tsAt cwd (pre ++ bad :: post)).earlyReturn = true ∧
    (Room.save_and_open_images tsAt cwd (pre ++ bad :: post)).written.length = pre.length ∧
    (Room.save_and_open_images tsAt cwd (pre ++ bad :: post)).opened.length = pre.length :=
  save_loop_abort tsAt cwd bad post hbad pre 0 hpre

/-- Witness for C9: one good payload, then `"QQ"` (two data characters: an
incorrect-padding `binascii.Error`), then another good payload — only the
first is written. -/
theorem C9_decode_failure_aborts_loop_witness :
    (Room.save_and_open_images (fun _ => "T") "/work"
        (["AAAA"] ++ "QQ" :: ["AAAA"])).earlyReturn = true ∧
    (Room.save_and_open_images (fun _ => "T") "/work"
        (["AAAA"] ++ "QQ" :: ["AAAA"])).written.length = ["AAAA"].length ∧
    (Room.save_and_open_images (fun _ => "T") "/work"
        (["AAAA"] ++ "QQ" :: ["AAAA"])).opened.length = ["AAAA"].length :=
  C9_decode_failure_aborts_loop (fun _ => "T") "/work" ["AAAA"] "QQ" ["AAAA"]
    (by decide) (by decide)

/-- **C10.** In the room/furniture script, an empty or whitespace-only
furniture-change instruction is not rejected: it is silently replaced by the
default prompt `"replace sofa"`, and the request body is built with that
default as the mask prompt. -/
theorem C10_blank_prompt_defaults (raw room_img furn_img : String)
    (h : Room.pyStrip raw = "") :
    Room.resolvePromptText raw = "replace sofa" ∧
    (Room.buildRoomBody room_img furn_img (Room.resolvePromptText raw)).maskPrompt
      = "replace sofa" := by
  have hps : Room.pyStrip "" = "" := rfl
  have h1 : Room.resolvePromptText raw = "replace sofa" := by
    simp [Room.resolvePromptText, h, hps]
  exact ⟨h1, by rw [h1]; rfl⟩

/-- Witness for C10: a whitespace-only instruction yields the default mask
prompt. -/
theorem C10_blank_prompt_defaults_witness :
    Room.resolvePromptText "  " = "replace sofa" ∧
    (Room.buildRoomBody "room.png" "sofa.png" (Room.resolvePromptText "  ")).maskPrompt
      = "replace sofa" :=
  C10_blank_prompt_defaults "  " "room.png" "sofa.png" (by decide)
